import Mathlib

/-!
Verification of the StudyHub lab container orchestrator
(`docker_lab_manager.py`, class `DockerLabManager`).

The runtime state is modelled as a list of lab containers, newest first
(the Docker client lists containers in reverse creation order, so
`containers[0]` in the source corresponds to `List.head?` here).
Timestamps are minutes since an arbitrary epoch, as natural numbers.
External effects are passed in explicitly:
- `rand` gives the successive outputs of `random.randint` in the port probe;
- `avail` is the bind-and-release port probe `_is_port_available`;
- `remFails` says which container removals raise inside a kill loop;
- an `Env` record carries the ambient facts one Spawn call observes
  (Docker reachability, image existence, the allocated port, whether the
  new container reports `running` after the settle delay, the clock, the
  fresh container id, and the port drawn by `_simulate_spawn`).
-/

/-- A lab container as tracked by its `studyhub.*` labels: the runtime id,
the `user_id` label, the optional `lab_id` label, the `created_at` and
`expires_at` labels (minutes), the published host port, and whether the
runtime reports it in the `running` state. -/
structure Container where
  cid : Nat
  owner : Nat
  labId : Option Nat
  createdAt : Nat
  expiresAt : Nat
  hostPort : Nat
  running : Bool
  deriving Repr, DecidableEq

/-- The whole runtime state: lab containers, newest first. -/
abbrev LabState := List Container

/-- Result dictionary of `kill_user_containers`. -/
structure KillResult where
  success : Bool
  killedCount : Nat
  containers : List Nat
  deriving Repr, DecidableEq

/-- The `error_code` strings returned by `spawn_lab_container`. -/
inductive ErrorCode where
  | RUNTIME_ERROR
  | DEFAULT_IMAGE_MISSING
  | IMAGE_NOT_FOUND
  | DOCKER_API_ERROR
  | UNKNOWN_ERROR
  deriving Repr, DecidableEq

/-- The dictionary returned by `_simulate_spawn`: `simUid` and `simTime`
are the user id and the `time.time()` reading embedded in the synthetic
container id `sim_{user}_{time}`. -/
structure SimResponse where
  success : Bool
  simulated : Bool
  simUid : Nat
  simTime : Nat
  ip : String
  port : Nat
  image : String
  labId : Option Nat
  startedAt : Nat
  expiresAt : Nat
  timeoutMinutes : Nat
  deriving Repr, DecidableEq

/-- Outcome of one `spawn_lab_container` call. -/
inductive SpawnOutcome where
  | ok (cid : Nat) (port : Nat) (expiresAt : Nat)
  | err (code : ErrorCode)
  | sim (r : SimResponse)
  deriving Repr, DecidableEq

/-- Ambient facts observed by a single Spawn call. -/
structure Env where
  dockerAvailable : Bool
  imageExists : String → Bool
  freePort : Option Nat
  startupOk : Bool
  remFails : Nat → Bool
  freshCid : Nat
  now : Nat
  randPort : Nat

/-- `PORT_RANGE_START = 20000`. -/
def PORT_RANGE_START : Nat := 20000

/-- `PORT_RANGE_END = 30000`. -/
def PORT_RANGE_END : Nat := 30000

/-- `DEFAULT_TIMEOUT_MINUTES = 120`. -/
def DEFAULT_TIMEOUT_MINUTES : Nat := 120

/-- Default of the `max_age_minutes` argument of `cleanup_stale_containers`. -/
def STALE_MAX_AGE_DEFAULT : Nat := 60

/-- The background cleanup loop sleeps 300 seconds, i.e. 5 minutes. -/
def CLEANUP_INTERVAL_MINUTES : Nat := 5

/-- The hard-coded fallback image of `spawn_lab_container`. -/
def default_image : String := "nginx:alpine"

/-- The random phase of `_find_free_port`: up to `fuel` draws
`rand i, rand (i+1), ...` of `random.randint(PORT_RANGE_START, PORT_RANGE_END)`,
returning the first that passes the bind probe. -/
def randomPhase (rand : Nat → Nat) (avail : Nat → Bool) : Nat → Nat → Option Nat
  | _, 0 => none
  | i, fuel + 1 =>
    if avail (rand i) then some (rand i) else randomPhase rand avail (i + 1) fuel

/-- `_find_free_port`: 100 random probes, then the sequential scan
`for port in range(PORT_RANGE_START, PORT_RANGE_END)`. `none` models the
`RuntimeError` raised when both phases fail. -/
def find_free_port (rand : Nat → Nat) (avail : Nat → Bool) : Option Nat :=
  match randomPhase rand avail 0 100 with
  | some p => some p
  | none => (List.range' PORT_RANGE_START (PORT_RANGE_END - PORT_RANGE_START)).find? avail

/-- `kill_user_containers` (Docker reachable): list every container with the
`studyhub.user_id = uid` label (`all=True`), stop and remove each; a per
container exception (modelled by `remFails` on its id) is collected as an
error and leaves that container in place. Returns the result dictionary and
the new runtime state. -/
def kill_user_containers (remFails : Nat → Bool) (uid : Nat) (s : LabState) :
    KillResult × LabState :=
  let matched := s.filter (fun c => c.owner == uid)
  let killed := (matched.filter (fun c => !remFails c.cid)).map (fun c => c.cid)
  let failedCount := (matched.filter (fun c => remFails c.cid)).length
  (⟨failedCount == 0, killed.length, killed⟩,
   s.filter (fun c => !(c.owner == uid && !remFails c.cid)))

/-- `get_user_active_lab`: `None` when Docker is unavailable, otherwise the
first container listed with the `user_id = uid` label and `status=running`
(`containers[0]`, i.e. the newest). -/
def get_user_active_lab (dockerAvail : Bool) (uid : Nat) (s : LabState) :
    Option Container :=
  if dockerAvail then (s.filter (fun c => c.owner == uid && c.running)).head?
  else none

/-- `_simulate_spawn`: a synthetic response built from the current
`random.randint(PORT_RANGE_START, PORT_RANGE_END)` draw and `time.time()`. -/
def simulate_spawn (randPort : Nat) (now : Nat) (uid : Nat) (image : String)
    (labId : Option Nat) : SimResponse :=
  ⟨true, true, uid, now, "10.10.10.5", randPort, image, labId, now, now + 120, 120⟩

/-- `spawn_lab_container`. Following the source: if Docker (even after the
lazy reconnect) is unavailable, return the simulated response; otherwise
kill the existing containers of the user, allocate a port (a `RuntimeError`
from `_find_free_port` is caught as `error_code = RUNTIME_ERROR`), run the
container with the `created_at`/`expires_at` labels, sleep, reload, and
raise `RuntimeError` (caught as `RUNTIME_ERROR`) if the status is not
`running` — the container is left in the state in that case. A missing image
falls back once: if the requested image already is the default one, return
`DEFAULT_IMAGE_MISSING`, else retry with the default image. The third
component lists the images passed to `containers.run`, in order. -/
def spawn_lab_container (env : Env) (uid : Nat) (image : String)
    (labId : Option Nat) (timeout : Nat) (s : LabState) :
    SpawnOutcome × LabState × List String :=
  if env.dockerAvailable = false then
    (SpawnOutcome.sim (simulate_spawn env.randPort env.now uid image labId), s, [])
  else
    let s1 := (kill_user_containers env.remFails uid s).2
    match env.freePort with
    | none => (SpawnOutcome.err ErrorCode.RUNTIME_ERROR, s1, [])
    | some port =>
      if env.imageExists image then
        let c : Container :=
          ⟨env.freshCid, uid, labId, env.now, env.now + timeout, port, env.startupOk⟩
        if env.startupOk then
          (SpawnOutcome.ok env.freshCid port (env.now + timeout), c :: s1, [image])
        else
          (SpawnOutcome.err ErrorCode.RUNTIME_ERROR, c :: s1, [image])
      else
        if image = default_image then
          (SpawnOutcome.err ErrorCode.DEFAULT_IMAGE_MISSING, s1, [image])
        else
          let r := spawn_lab_container env uid default_image labId timeout s1
          (r.1, r.2.1, image :: r.2.2)
termination_by (if image = default_image then 0 else 1)
decreasing_by
  simp_all

/-- `cleanup_expired_containers`: over every container carrying the
`expires_at` label (all lab containers here), remove those with
`now > expires_at`; a per-container exception (`remFails`) is collected and
leaves the container in place. Returns the `cleaned` count, the removed
ids, and the new state. -/
def cleanup_expired_containers (remFails : Nat → Bool) (now : Nat)
    (s : LabState) : Nat × List Nat × LabState :=
  let expired := s.filter (fun c => decide (c.expiresAt < now) && !remFails c.cid)
  (expired.length, expired.map (fun c => c.cid),
   s.filter (fun c => !(decide (c.expiresAt < now) && !remFails c.cid)))

/-- `cleanup_stale_containers`: remove every container whose age
`now - created_at` strictly exceeds `maxAge` minutes. Returns the `cleaned`
count and the new state. -/
def cleanup_stale_containers (maxAge : Nat) (now : Nat) (s : LabState) :
    Nat × LabState :=
  let stale := s.filter (fun c => decide (maxAge < now - c.createdAt))
  (stale.length, s.filter (fun c => !decide (maxAge < now - c.createdAt)))

/-- `extend_lab_timeout`: fail when Docker is unavailable or the user has no
active lab; otherwise read the `expires_at` label of the active lab, add the
extra minutes, and return the sum. The runtime state (in particular every
`expires_at` label) is untouched. -/
def extend_lab_timeout (dockerAvail : Bool) (uid : Nat) (additional : Nat)
    (s : LabState) : Option Nat × LabState :=
  if dockerAvail then
    match get_user_active_lab true uid s with
    | none => (none, s)
    | some lab => (some (lab.expiresAt + additional), s)
  else (none, s)

/-! ## Helper lemmas -/

theorem mem_kill_state (rem : Nat → Bool) (uid : Nat) (s : LabState)
    (c : Container) (hc : c ∈ (kill_user_containers rem uid s).2) :
    c ∈ s ∧ (c.owner = uid → rem c.cid = true) := by
  simp only [kill_user_containers, List.mem_filter, Bool.not_eq_true',
    Bool.and_eq_false_iff, beq_eq_false_iff_ne, ne_eq, Bool.not_eq_false] at hc
  obtain ⟨hs, h⟩ := hc
  refine ⟨hs, fun ho => ?_⟩
  rcases h with h | h
  · exact absurd ho h
  · simpa using h

theorem kill_no_match (rem : Nat → Bool) (uid : Nat) (s : LabState)
    (h : ∀ c ∈ s, c.owner ≠ uid) :
    kill_user_containers rem uid s = (⟨true, 0, []⟩, s) := by
  have hown : ∀ c ∈ s, (c.owner == uid) = false := by
    intro c hc
    exact beq_eq_false_iff_ne.mpr (h c hc)
  have hmatch : s.filter (fun c => c.owner == uid) = [] := by
    rw [List.filter_eq_nil_iff]
    intro c hc
    simp [hown c hc]
  have hkeep : s.filter (fun c => !(c.owner == uid && !rem c.cid)) = s := by
    rw [List.filter_eq_self]
    intro c hc
    simp [hown c hc]
  simp only [kill_user_containers, hmatch, hkeep, List.filter_nil,
    List.map_nil, List.length_nil, Prod.mk.injEq, and_true]
  simp

/-! ## Claim C5: Extend does not touch the state the expiry sweep reads -/

/-- Claim C5: for every owner with an active instance, Extend leaves the
expiry metadata attached to the running instance unchanged — the runtime
state is identical before and after the call, so the `expires_at` labels
the expiry sweep reads are identical, and the new expiry is persisted
nowhere the sweep consults. -/
theorem extend_frame_effect (d : Bool) (uid additional : Nat) (s : LabState)
    (rem : Nat → Bool) (now : Nat) :
    (extend_lab_timeout d uid additional s).2 = s
    ∧ cleanup_expired_containers rem now (extend_lab_timeout d uid additional s).2
        = cleanup_expired_containers rem now s := by
  have h : (extend_lab_timeout d uid additional s).2 = s := by
    unfold extend_lab_timeout
    split
    · split <;> rfl
    · rfl
  exact ⟨h, by rw [h]⟩

/-! ## Claim C3: the returned extension is not capped -/

/-- A running lab of owner 1, created at minute 0 with the 120 minute
expiry label. -/
def labC3 : Container := ⟨1, 1, none, 0, 120, 20005, true⟩

/-- Counterexample to claim C3: there is no maximum total lifetime (from
creation) bounding the `new_expires_at` values Extend returns for the
instance `labC3` — the returned expiry grows without bound in
`extra_minutes`. -/
theorem extend_cap_counterexample :
    ¬ ∃ M : Nat, ∀ additional e : Nat,
        (extend_lab_timeout true 1 additional [labC3]).1 = some e →
        e ≤ labC3.createdAt + M := by
  rintro ⟨M, h⟩
  have hrun : (extend_lab_timeout true 1 (M + 1) [labC3]).1 = some (120 + (M + 1)) := by
    simp [extend_lab_timeout, get_user_active_lab, labC3]
  have := h (M + 1) (120 + (M + 1)) hrun
  simp [labC3] at this
  omega

/-- Claim C3 as amended: Extend applies no cap at all — for every owner with
an active instance it returns exactly the `expires_at` label of that
instance plus `extra_minutes`, for any `extra_minutes`. -/
theorem extend_returns_uncapped_sum (uid additional : Nat) (s : LabState)
    (lab : Container) (h : get_user_active_lab true uid s = some lab) :
    (extend_lab_timeout true uid additional s).1
      = some (lab.expiresAt + additional) := by
  simp [extend_lab_timeout, h]

/-- Witness for the amended claim C3 at a concrete instance. -/
theorem extend_returns_uncapped_sum_witness :
    (extend_lab_timeout true 1 45 [labC3]).1 = some (120 + 45) :=
  extend_returns_uncapped_sum 1 45 [labC3] labC3 (by decide)

/-! ## Claim C9: Kill on an owner with no instances, and partial failures -/

/-- Claim C9: Kill returns `success = true` exactly when every matched
container was removed without error, `killed_count` counts the removals
that succeeded; for an owner with no containers it returns
`killed_count = 0` and `success = true` leaving the state unchanged, and it
is idempotent: immediately after a clean Kill removed everything, a second
Kill again returns `killed_count = 0` and `success = true`. -/
theorem kill_idempotent_success (rem : Nat → Bool) (uid : Nat) (s : LabState) :
    ((kill_user_containers rem uid s).1.success = true
        ↔ ∀ c ∈ s, c.owner = uid → rem c.cid = false)
    ∧ (kill_user_containers rem uid s).1.killedCount
        = (s.filter (fun c => c.owner == uid && !rem c.cid)).length
    ∧ ((∀ c ∈ s, c.owner ≠ uid) →
        kill_user_containers rem uid s = (⟨true, 0, []⟩, s))
    ∧ ((∀ c ∈ s, rem c.cid = false) →
        (kill_user_containers rem uid (kill_user_containers rem uid s).2).1
          = ⟨true, 0, []⟩) := by
  refine ⟨?_, ?_, fun h => kill_no_match rem uid s h, fun hclean => ?_⟩
  · have hs : (kill_user_containers rem uid s).1.success
        = ((s.filter (fun c => rem c.cid && (c.owner == uid))).length == 0) := by
      simp [kill_user_containers, List.filter_filter]
    rw [hs]
    simp only [beq_iff_eq, List.length_eq_zero, List.filter_eq_nil_iff]
    constructor
    · intro h c hc ho
      have hcc := h c hc
      simp only [ho, beq_self_eq_true, Bool.and_true, Bool.not_eq_true] at hcc
      exact hcc
    · intro h c hc
      have hcc := h c hc
      cases hb : (c.owner == uid) with
      | false => simp [hb]
      | true => simp [hb, hcc (beq_iff_eq.mp hb)]
  · simp [kill_user_containers, List.filter_filter, Bool.and_comm]
  · have hpost : ∀ c ∈ (kill_user_containers rem uid s).2, c.owner ≠ uid := by
      intro c hc ho
      obtain ⟨hs, h⟩ := mem_kill_state rem uid s c hc
      have := h ho
      rw [hclean c hs] at this
      exact Bool.false_ne_true this
    rw [kill_no_match rem uid (kill_user_containers rem uid s).2 hpost]

/-- A state holding one running lab of owner 2 only. -/
def sC9 : LabState := [⟨5, 2, none, 0, 120, 20007, true⟩]

/-- Witness for claim C9: killing for owner 7, who has no containers in
`sC9`, returns `killed_count = 0`, `success = true`, and leaves the state
unchanged. -/
theorem kill_idempotent_success_witness :
    kill_user_containers (fun _ => false) 7 sC9 = (⟨true, 0, []⟩, sC9) :=
  (kill_idempotent_success (fun _ => false) 7 sC9).2.2.1 (by decide)

/-! ## Claim C6: the expiry sweep removes exactly the expired instances -/

/-- Scenario instance of owner 1, expired at sweep time 100. -/
def labC6a : Container := ⟨11, 1, none, 0, 50, 20011, true⟩

/-- Scenario instance of owner 2, expired at sweep time 100. -/
def labC6b : Container := ⟨12, 2, none, 0, 99, 20012, true⟩

/-- Scenario instance of owner 3, not yet expired at sweep time 100. -/
def labC6c : Container := ⟨13, 3, none, 40, 150, 20013, true⟩

/-- The three-instance scenario state of claim C6. -/
def labsC6 : LabState := [labC6a, labC6b, labC6c]

/-- Claim C6: with no removal errors, one expiry sweep at time `now` keeps
exactly the instances whose `expires_at` is not strictly in the past and
reports the number of expired ones as its cleaned count; in the concrete
scenario of three instances of which two are expired at `now = 100` it
reports 2 cleaned and the third instance still answers a subsequent Status
query for its owner. -/
theorem cleanup_expired_exact :
    (∀ (now : Nat) (s : LabState) (c : Container), c ∈ s →
        (c ∈ (cleanup_expired_containers (fun _ => false) now s).2.2
          ↔ ¬ c.expiresAt < now))
    ∧ (∀ (now : Nat) (s : LabState),
        (cleanup_expired_containers (fun _ => false) now s).1
          = (s.filter (fun c => decide (c.expiresAt < now))).length)
    ∧ (cleanup_expired_containers (fun _ => false) 100 labsC6).1 = 2
    ∧ get_user_active_lab true 3
        (cleanup_expired_containers (fun _ => false) 100 labsC6).2.2
          = some labC6c := by
  refine ⟨?_, ?_, by decide, by decide⟩
  · intro now s c hc
    simp [cleanup_expired_containers, List.mem_filter, hc]
  · intro now s
    simp [cleanup_expired_containers]

/-- Witness for claim C6: the unexpired scenario instance survives the
sweep at time 100. -/
theorem cleanup_expired_exact_witness :
    labC6c ∈ (cleanup_expired_containers (fun _ => false) 100 labsC6).2.2
      ↔ ¬ labC6c.expiresAt < 100 :=
  cleanup_expired_exact.1 100 labsC6 labC6c (by decide)

/-! ## Claim C7: port allocation and the end of the scan range -/

theorem randomPhase_none (rand : Nat → Nat) (avail : Nat → Bool)
    (h : ∀ i, avail (rand i) = false) :
    ∀ fuel i, randomPhase rand avail i fuel = none := by
  intro fuel
  induction fuel with
  | zero => intro i; rfl
  | succ n ih => intro i; simp [randomPhase, h i, ih]

theorem randomPhase_some_avail (rand : Nat → Nat) (avail : Nat → Bool) :
    ∀ fuel i p, randomPhase rand avail i fuel = some p → avail p = true := by
  intro fuel
  induction fuel with
  | zero => intro i p h; exact absurd h (by simp [randomPhase])
  | succ n ih =>
    intro i p h
    by_cases ha : avail (rand i)
    · rw [randomPhase, if_pos ha] at h
      cases h
      exact ha
    · rw [randomPhase, if_neg ha] at h
      exact ih (i + 1) p h

/-- Counterexample to claim C7: when only the inclusive upper endpoint
30000 is free and every random draw lands on the busy port 20000 (a
possible run of `random.randint(20000, 30000)`), `_find_free_port` reports
exhaustion even though a port of the inclusive range 20000–30000 is free:
the sequential scan `range(20000, 30000)` stops at 29999. -/
theorem find_free_port_misses_range_end :
    find_free_port (fun _ => 20000) (fun p => p == 30000) = none
    ∧ ((30000 == 30000) : Bool) = true
    ∧ PORT_RANGE_START ≤ 30000 ∧ 30000 ≤ PORT_RANGE_END := by
  refine ⟨?_, by decide, by decide, by decide⟩
  unfold find_free_port
  rw [randomPhase_none _ _ (fun i => by decide) 100 0]
  rw [List.find?_eq_none]
  intro x hx
  rw [List.mem_range'_1] at hx
  simp only [PORT_RANGE_START, PORT_RANGE_END] at hx
  simp only [beq_iff_eq]
  omega

/-- Claim C7 as amended: the sequential fallback scan covers the
half-open range 20000–29999 only, so any returned port passed the
bind probe, and whenever some port in the half-open range
[`PORT_RANGE_START`, `PORT_RANGE_END`) is free the allocator returns a
free port; the guarantee does not extend to the inclusive endpoint 30000. -/
theorem find_free_port_spec (rand : Nat → Nat) (avail : Nat → Bool) :
    (∀ q, find_free_port rand avail = some q → avail q = true)
    ∧ ((∃ p, PORT_RANGE_START ≤ p ∧ p < PORT_RANGE_END ∧ avail p = true) →
        ∃ q, find_free_port rand avail = some q ∧ avail q = true) := by
  constructor
  · intro q h
    unfold find_free_port at h
    cases hr : randomPhase rand avail 0 100 with
    | some p =>
      rw [hr] at h
      cases h
      exact randomPhase_some_avail _ _ 100 0 q hr
    | none =>
      rw [hr] at h
      exact List.find?_some h
  · rintro ⟨p, h1, h2, h3⟩
    unfold find_free_port
    cases hr : randomPhase rand avail 0 100 with
    | some q => exact ⟨q, rfl, randomPhase_some_avail _ _ 100 0 q hr⟩
    | none =>
      have hmem : p ∈ List.range' PORT_RANGE_START
          (PORT_RANGE_END - PORT_RANGE_START) := by
        rw [List.mem_range'_1]
        refine ⟨h1, ?_⟩
        simp only [PORT_RANGE_START, PORT_RANGE_END] at h2 ⊢
        omega
      have hsome : ((List.range' PORT_RANGE_START
          (PORT_RANGE_END - PORT_RANGE_START)).find? avail).isSome := by
        rw [List.find?_isSome]
        exact ⟨p, hmem, h3⟩
      obtain ⟨q, hq⟩ := Option.isSome_iff_exists.mp hsome
      exact ⟨q, hq, List.find?_some hq⟩

/-- Witness for the amended claim C7: with port 20005 free, the allocator
finds a free port. -/
theorem find_free_port_spec_witness :
    ∃ q, find_free_port (fun _ => 20000) (fun p => p == 20005) = some q
        ∧ (fun p : Nat => p == 20005) q = true :=
  (find_free_port_spec (fun _ => 20000) (fun p => p == 20005)).2
    ⟨20005, by decide, by decide, by decide⟩

/-! ## Claim C10: the stale sweep fires before the default expiry -/

/-- The instant of the k-th run of the background cleanup loop started at
minute `s0` (the loop sleeps 300 seconds between runs). -/
def sweepTime (s0 k : Nat) : Nat := s0 + CLEANUP_INTERVAL_MINUTES * k

theorem stale_singleton (maxAge now : Nat) (c : Container) :
    (cleanup_stale_containers maxAge now [c]).2
      = if maxAge < now - c.createdAt then [] else [c] := by
  simp only [cleanup_stale_containers, List.filter]
  by_cases h : maxAge < now - c.createdAt
  · simp [h]
  · simp [h]

/-- Claim C10: the stale sweep default ceiling (60 minutes) is strictly
below the default Spawn timeout (120 minutes), so an instance spawned with
the default timeout and left alone is removed by the first background stale
sweep whose time exceeds `created_at + 60` — an instant that is still
strictly before the instance's recorded `expires_at`, about an hour early. -/
theorem stale_sweep_precedes_expiry (s0 : Nat) (c : Container)
    (hexp : c.expiresAt = c.createdAt + DEFAULT_TIMEOUT_MINUTES)
    (hs : s0 ≤ c.createdAt) :
    STALE_MAX_AGE_DEFAULT < DEFAULT_TIMEOUT_MINUTES
    ∧ ∃ k, (cleanup_stale_containers STALE_MAX_AGE_DEFAULT (sweepTime s0 k) [c]).2 = []
        ∧ (∀ j, j < k →
            (cleanup_stale_containers STALE_MAX_AGE_DEFAULT
              (sweepTime s0 j) [c]).2 = [c])
        ∧ sweepTime s0 k < c.expiresAt := by
  refine ⟨by decide, ?_⟩
  have h5 : CLEANUP_INTERVAL_MINUTES = 5 := rfl
  have h60 : STALE_MAX_AGE_DEFAULT = 60 := rfl
  have h120 : DEFAULT_TIMEOUT_MINUTES = 120 := rfl
  set d := c.createdAt + 60 - s0 with hd
  have hdm := Nat.div_add_mod d 5
  have hmod : d % 5 < 5 := Nat.mod_lt _ (by omega)
  refine ⟨d / 5 + 1, ?_, ?_, ?_⟩
  · rw [stale_singleton, if_pos]
    simp only [sweepTime, h5, h60]
    omega
  · intro j hj
    rw [stale_singleton, if_neg]
    simp only [sweepTime, h5, h60]
    omega
  · simp only [sweepTime, h5, hexp, h120]
    omega

/-- Witness for claim C10 at a concrete instance created at minute 0 with
the default 120 minute expiry, sweeps starting at minute 0. -/
theorem stale_sweep_precedes_expiry_witness :
    STALE_MAX_AGE_DEFAULT < DEFAULT_TIMEOUT_MINUTES
    ∧ ∃ k, (cleanup_stale_containers STALE_MAX_AGE_DEFAULT (sweepTime 0 k)
          [⟨21, 4, none, 0, 120, 20021, true⟩]).2 = []
        ∧ (∀ j, j < k →
            (cleanup_stale_containers STALE_MAX_AGE_DEFAULT (sweepTime 0 j)
              [⟨21, 4, none, 0, 120, 20021, true⟩]).2
              = [⟨21, 4, none, 0, 120, 20021, true⟩])
        ∧ sweepTime 0 k < (⟨21, 4, none, 0, 120, 20021, true⟩ : Container).expiresAt :=
  stale_sweep_precedes_expiry 0 ⟨21, 4, none, 0, 120, 20021, true⟩ rfl (Nat.le_refl 0)

/-! ## Branch equations for `spawn_lab_container` -/

theorem spawn_eq_sim (env : Env) (uid : Nat) (image : String)
    (labId : Option Nat) (timeout : Nat) (s : LabState)
    (hd : env.dockerAvailable = false) :
    spawn_lab_container env uid image labId timeout s
      = (SpawnOutcome.sim (simulate_spawn env.randPort env.now uid image labId),
          s, []) := by
  rw [spawn_lab_container.eq_def]
  simp [hd]

theorem spawn_eq_noport (env : Env) (uid : Nat) (image : String)
    (labId : Option Nat) (timeout : Nat) (s : LabState)
    (hd : env.dockerAvailable = true) (hfp : env.freePort = none) :
    spawn_lab_container env uid image labId timeout s
      = (SpawnOutcome.err ErrorCode.RUNTIME_ERROR,
          (kill_user_containers env.remFails uid s).2, []) := by
  rw [spawn_lab_container.eq_def]
  simp [hd, hfp]

theorem spawn_eq_run (env : Env) (uid : Nat) (image : String)
    (labId : Option Nat) (timeout : Nat) (s : LabState) (p : Nat)
    (hd : env.dockerAvailable = true) (hfp : env.freePort = some p)
    (him : env.imageExists image = true) :
    spawn_lab_container env uid image labId timeout s
      = ((if env.startupOk then SpawnOutcome.ok env.freshCid p (env.now + timeout)
            else SpawnOutcome.err ErrorCode.RUNTIME_ERROR),
          (⟨env.freshCid, uid, labId, env.now, env.now + timeout, p,
            env.startupOk⟩ : Container)
            :: (kill_user_containers env.remFails uid s).2, [image]) := by
  rw [spawn_lab_container.eq_def]
  by_cases hok : env.startupOk <;> simp [hd, hfp, him, hok]

theorem spawn_eq_default_missing (env : Env) (uid : Nat) (image : String)
    (labId : Option Nat) (timeout : Nat) (s : LabState) (p : Nat)
    (hd : env.dockerAvailable = true) (hfp : env.freePort = some p)
    (him : env.imageExists image = false) (hdef : image = default_image) :
    spawn_lab_container env uid image labId timeout s
      = (SpawnOutcome.err ErrorCode.DEFAULT_IMAGE_MISSING,
          (kill_user_containers env.remFails uid s).2, [image]) := by
  subst hdef
  rw [spawn_lab_container.eq_def]
  simp [hd, hfp, him]

theorem spawn_eq_fallback (env : Env) (uid : Nat) (image : String)
    (labId : Option Nat) (timeout : Nat) (s : LabState) (p : Nat)
    (hd : env.dockerAvailable = true) (hfp : env.freePort = some p)
    (him : env.imageExists image = false) (hdef : image ≠ default_image) :
    spawn_lab_container env uid image labId timeout s
      = ((spawn_lab_container env uid default_image labId timeout
            (kill_user_containers env.remFails uid s).2).1,
         (spawn_lab_container env uid default_image labId timeout
            (kill_user_containers env.remFails uid s).2).2.1,
         image :: (spawn_lab_container env uid default_image labId timeout
            (kill_user_containers env.remFails uid s).2).2.2) := by
  rw [spawn_lab_container.eq_def]
  simp [hd, hfp, him, hdef]

/-! ## Claim C1: one running instance per owner at Spawn boundaries -/

theorem kill_state_no_owner (rem : Nat → Bool) (uid : Nat) (s : LabState)
    (hrem : ∀ n, rem n = false) :
    ∀ c ∈ (kill_user_containers rem uid s).2, c.owner ≠ uid := by
  intro c hc ho
  obtain ⟨hs, h⟩ := mem_kill_state rem uid s c hc
  rw [hrem c.cid] at h
  exact Bool.false_ne_true (h ho)

theorem filter_owner_kill (rem : Nat → Bool) (uid : Nat) (s : LabState)
    (hrem : ∀ n, rem n = false) :
    ((kill_user_containers rem uid s).2.filter
        (fun c => c.owner == uid && c.running)) = [] := by
  rw [List.filter_eq_nil_iff]
  intro c hc
  have hne := kill_state_no_owner rem uid s hrem c hc
  simp [beq_eq_false_iff_ne.mpr hne]

/-- Claim C1: for every serialized Spawn call for `uid` over an arbitrary
prior state (hence at every boundary of a sequence of serialized Spawn
calls for the same owner), when the runtime is reachable and removals do
not fail, at most one container tagged with that owner is in running state
afterwards, and every container still tagged with the owner is the freshly
created one — the call first removed every pre-existing container of the
owner. -/
theorem spawn_single_running_instance (env : Env) (uid : Nat) (image : String)
    (labId : Option Nat) (timeout : Nat) (s : LabState)
    (hd : env.dockerAvailable = true)
    (hrem : ∀ n, env.remFails n = false) :
    ((spawn_lab_container env uid image labId timeout s).2.1.filter
        (fun c => c.owner == uid && c.running)).length ≤ 1
    ∧ ∀ c ∈ (spawn_lab_container env uid image labId timeout s).2.1,
        c.owner = uid → c.cid = env.freshCid := by
  have core : ∀ (img : String) (base : LabState),
      (∀ c ∈ (kill_user_containers env.remFails uid base).2, c.owner ≠ uid) →
      ((spawn_lab_container env uid img labId timeout base).2.1.filter
          (fun c => c.owner == uid && c.running)).length ≤ 1
      ∧ ∀ c ∈ (spawn_lab_container env uid img labId timeout base).2.1,
          c.owner = uid → c.cid = env.freshCid := by
    intro img base hbase
    have hfilter : ((kill_user_containers env.remFails uid base).2.filter
        (fun c => c.owner == uid && c.running)) = [] :=
      filter_owner_kill env.remFails uid base hrem
    cases hfp : env.freePort with
    | none =>
      rw [spawn_eq_noport env uid img labId timeout base hd hfp]
      constructor
      · simp [hfilter]
      · intro c hc ho
        exact absurd ho (hbase c hc)
    | some p =>
      by_cases him : env.imageExists img
      · rw [spawn_eq_run env uid img labId timeout base p hd hfp him]
        constructor
        · simp only [List.filter_cons, hfilter]
          split <;> simp
        · intro c hc ho
          rcases List.mem_cons.mp hc with hc | hc
          · rw [hc]
          · exact absurd ho (hbase c hc)
      · have him' : env.imageExists img = false := by simpa using him
        by_cases hdef : img = default_image
        · rw [spawn_eq_default_missing env uid img labId timeout base p hd hfp
            him' hdef]
          constructor
          · simp [hfilter]
          · intro c hc ho
            exact absurd ho (hbase c hc)
        · rw [spawn_eq_fallback env uid img labId timeout base p hd hfp him' hdef]
          set base2 := (kill_user_containers env.remFails uid base).2 with hb2
          have hbase2 : ∀ c ∈ (kill_user_containers env.remFails uid base2).2,
              c.owner ≠ uid :=
            kill_state_no_owner env.remFails uid base2 hrem
          have hfilter2 : ((kill_user_containers env.remFails uid base2).2.filter
              (fun c => c.owner == uid && c.running)) = [] :=
            filter_owner_kill env.remFails uid base2 hrem
          cases hfp2 : env.freePort with
          | none =>
            rw [spawn_eq_noport env uid default_image labId timeout base2 hd hfp2]
            constructor
            · simp [hfilter2]
            · intro c hc ho
              exact absurd ho (hbase2 c hc)
          | some q =>
            by_cases him2 : env.imageExists default_image
            · rw [spawn_eq_run env uid default_image labId timeout base2 q hd
                hfp2 him2]
              constructor
              · simp only [List.filter_cons, hfilter2]
                split <;> simp
              · intro c hc ho
                rcases List.mem_cons.mp hc with hc | hc
                · rw [hc]
                · exact absurd ho (hbase2 c hc)
            · have him2' : env.imageExists default_image = false := by
                simpa using him2
              rw [spawn_eq_default_missing env uid default_image labId timeout
                base2 q hd hfp2 him2' rfl]
              constructor
              · simp [hfilter2]
              · intro c hc ho
                exact absurd ho (hbase2 c hc)
  exact core image s (kill_state_no_owner env.remFails uid s hrem)

/-- Environment for the claim C1 witness: runtime reachable, every image
present, port 20100 free, startup clean. -/
def envC1 : Env := ⟨true, fun _ => true, some 20100, true, fun _ => false, 99, 1000, 20000⟩

/-- Prior state for the claim C1 witness: owner 7 already has two running
containers (e.g. left over after a crash). -/
def sC1 : LabState :=
  [⟨1, 7, none, 0, 120, 20001, true⟩, ⟨2, 7, none, 10, 130, 20002, true⟩]

/-- Witness for claim C1: a Spawn for owner 7 over a state already holding
two of their containers leaves at most one running instance of owner 7,
namely the fresh one. -/
theorem spawn_single_running_instance_witness :
    ((spawn_lab_container envC1 7 "vulnlab/sqli-basic:v1" none 60 sC1).2.1.filter
        (fun c => c.owner == 7 && c.running)).length ≤ 1
    ∧ ∀ c ∈ (spawn_lab_container envC1 7 "vulnlab/sqli-basic:v1" none 60 sC1).2.1,
        c.owner = 7 → c.cid = 99 :=
  spawn_single_running_instance envC1 7 "vulnlab/sqli-basic:v1" none 60 sC1 rfl
    (fun _ => rfl)

/-! ## Claim C2: startup failure leaves the container behind -/

/-- Environment of the claim C2 failing input: runtime reachable, image
present, port 20100 free, but the container does not report `running` after
the settle delay. -/
def envC2 : Env := ⟨true, fun _ => true, some 20100, false, fun _ => false, 42, 1000, 20000⟩

/-- Evaluation of the claim C2 failing input: when the created container
does not report a running state after the settle delay, the call returns
`error_code = RUNTIME_ERROR` — the source has no `STARTUP_FAILURE` code —
and the created container is still present in the runtime state when the
error result is returned, contrary to the claimed removal. -/
theorem spawn_startup_failure_leaves_container :
    (spawn_lab_container envC2 7 "vulnlab/sqli-basic:v1" none 60 []).1
        = SpawnOutcome.err ErrorCode.RUNTIME_ERROR
    ∧ (spawn_lab_container envC2 7 "vulnlab/sqli-basic:v1" none 60 []).2.1
        = [⟨42, 7, none, 1000, 1060, 20100, false⟩] := by
  rw [spawn_eq_run envC2 7 "vulnlab/sqli-basic:v1" none 60 [] 20100 rfl rfl rfl]
  constructor
  · simp [envC2]
  · simp [kill_user_containers, envC2]

/-! ## Claim C4: exactly one bounded fallback attempt -/

/-- Claim C4: for a Spawn call whose requested image does not exist (with
the runtime reachable and a port available), exactly one attempt with the
configured default image is made, at most two run attempts happen in total
(recursion depth bounded by one), and when the default image is itself
missing the call returns `DEFAULT_IMAGE_MISSING`. -/
theorem fallback_exactly_once (env : Env) (uid : Nat) (image : String)
    (labId : Option Nat) (timeout : Nat) (s : LabState)
    (hd : env.dockerAvailable = true)
    (hp : ∃ p, env.freePort = some p)
    (hmiss : env.imageExists image = false) :
    (spawn_lab_container env uid image labId timeout s).2.2.count default_image = 1
    ∧ (spawn_lab_container env uid image labId timeout s).2.2.length ≤ 2
    ∧ (env.imageExists default_image = false →
        (spawn_lab_container env uid image labId timeout s).1
          = SpawnOutcome.err ErrorCode.DEFAULT_IMAGE_MISSING) := by
  obtain ⟨p, hp⟩ := hp
  by_cases hdef : image = default_image
  · rw [spawn_eq_default_missing env uid image labId timeout s p hd hp hmiss hdef]
    subst hdef
    refine ⟨by simp [List.count_cons], by simp, fun _ => rfl⟩
  · rw [spawn_eq_fallback env uid image labId timeout s p hd hp hmiss hdef]
    set base2 := (kill_user_containers env.remFails uid s).2 with hb2
    have himne : (image == default_image) = false := beq_eq_false_iff_ne.mpr hdef
    by_cases him2 : env.imageExists default_image
    · rw [spawn_eq_run env uid default_image labId timeout base2 p hd hp him2]
      refine ⟨?_, by simp, fun hff => ?_⟩
      · simp [List.count_cons, himne]
      · rw [him2] at hff
        exact absurd hff (by simp)
    · have him2' : env.imageExists default_image = false := by simpa using him2
      rw [spawn_eq_default_missing env uid default_image labId timeout base2 p
        hd hp him2' rfl]
      refine ⟨?_, by simp, fun _ => rfl⟩
      simp [List.count_cons, himne]

/-- Environment for the claim C4 witness: runtime reachable, no image
exists at all (the default included), port 20200 free. -/
def envC4 : Env := ⟨true, fun _ => false, some 20200, true, fun _ => false, 50, 0, 20000⟩

/-- Witness for claim C4: spawning a missing image when the default image
is missing too makes exactly one attempt with the default image, at most
two attempts overall, and returns `DEFAULT_IMAGE_MISSING`. -/
theorem fallback_exactly_once_witness :
    (spawn_lab_container envC4 3 "ghost-archive:latest" none 60 []).2.2.count
        default_image = 1
    ∧ (spawn_lab_container envC4 3 "ghost-archive:latest" none 60 []).2.2.length ≤ 2
    ∧ (spawn_lab_container envC4 3 "ghost-archive:latest" none 60 []).1
        = SpawnOutcome.err ErrorCode.DEFAULT_IMAGE_MISSING := by
  have h := fallback_exactly_once envC4 3 "ghost-archive:latest" none 60 []
    rfl ⟨20200, rfl⟩ rfl
  exact ⟨h.1, h.2.1, h.2.2 rfl⟩

/-! ## Claim C8: simulation mode responses -/

/-- Simulation-mode environment drawing port 20000 at clock 1000. -/
def envC8a : Env := ⟨false, fun _ => true, none, true, fun _ => false, 0, 1000, 20000⟩

/-- Simulation-mode environment identical to `envC8a` except that
`random.randint` drew 20001. -/
def envC8b : Env := ⟨false, fun _ => true, none, true, fun _ => false, 0, 1000, 20001⟩

/-- Counterexample to claim C8: two Spawn calls with the same arguments
(owner 7, same image, same timeout, same state, same clock) in simulation
mode return different responses when the internal `random.randint` draw
differs — both draws lie inside the configured range, so both runs are
possible; the synthetic response is not deterministic in the call
arguments. -/
theorem simulate_spawn_not_deterministic :
    spawn_lab_container envC8a 7 "nginx:alpine" none 120 []
      ≠ spawn_lab_container envC8b 7 "nginx:alpine" none 120 []
    ∧ PORT_RANGE_START ≤ envC8a.randPort ∧ envC8a.randPort ≤ PORT_RANGE_END
    ∧ PORT_RANGE_START ≤ envC8b.randPort ∧ envC8b.randPort ≤ PORT_RANGE_END := by
  refine ⟨?_, by decide, by decide, by decide, by decide⟩
  rw [spawn_eq_sim envC8a 7 "nginx:alpine" none 120 [] rfl,
    spawn_eq_sim envC8b 7 "nginx:alpine" none 120 [] rfl]
  simp [simulate_spawn, envC8a, envC8b]

/-- Claim C8 as amended: with the runtime unreachable, Spawn returns
(without throwing) a synthetic response with `simulated = true` and a port
inside the configured range (the `randint` draw is in 20000–30000), leaves
the runtime state untouched, and registers nothing a Status query would
report — but the response depends on the ambient random draw and clock, so
it is not deterministic across calls with the same arguments. -/
theorem spawn_simulation_spec (env : Env) (uid : Nat) (image : String)
    (labId : Option Nat) (timeout : Nat) (s : LabState)
    (hd : env.dockerAvailable = false)
    (hlo : PORT_RANGE_START ≤ env.randPort)
    (hhi : env.randPort ≤ PORT_RANGE_END) :
    (spawn_lab_container env uid image labId timeout s).1
        = SpawnOutcome.sim (simulate_spawn env.randPort env.now uid image labId)
    ∧ (simulate_spawn env.randPort env.now uid image labId).simulated = true
    ∧ PORT_RANGE_START ≤ (simulate_spawn env.randPort env.now uid image labId).port
    ∧ (simulate_spawn env.randPort env.now uid image labId).port ≤ PORT_RANGE_END
    ∧ (spawn_lab_container env uid image labId timeout s).2.1 = s
    ∧ get_user_active_lab false uid
        (spawn_lab_container env uid image labId timeout s).2.1 = none := by
  rw [spawn_eq_sim env uid image labId timeout s hd]
  exact ⟨rfl, rfl, hlo, hhi, rfl, rfl⟩

/-- Witness for the amended claim C8 in the concrete simulation
environment `envC8a`. -/
theorem spawn_simulation_spec_witness :
    (spawn_lab_container envC8a 9 "dvwa" none 60 []).1
        = SpawnOutcome.sim (simulate_spawn 20000 1000 9 "dvwa" none)
    ∧ (simulate_spawn 20000 1000 9 "dvwa" none).simulated = true
    ∧ PORT_RANGE_START ≤ (simulate_spawn 20000 1000 9 "dvwa" none).port
    ∧ (simulate_spawn 20000 1000 9 "dvwa" none).port ≤ PORT_RANGE_END
    ∧ (spawn_lab_container envC8a 9 "dvwa" none 60 []).2.1 = []
    ∧ get_user_active_lab false 9
        (spawn_lab_container envC8a 9 "dvwa" none 60 []).2.1 = none :=
  spawn_simulation_spec envC8a 9 "dvwa" none 60 [] rfl (by decide) (by decide)
